import Mathlib

/-!
Shallow embedding of the results/grading subsystem of the school LMS:
the GPA helpers in utils/helpers.py (calculate_gpa, calculate_cgpa,
get_grade_from_score), the Result model in results/models.py (clean, save,
the unique_together natural key) and the result views in results/views.py
(entry/edit/submit/verify/reject and the AJAX save and bulk-verify
endpoints).

Modelling conventions:
  * numeric scores and grade points are rationals (the Python code uses
    floats and Decimals carrying exact decimal values);
  * the Result table is a list of rows; Django QuerySet filters become
    list filters and QuerySet.update becomes a map over the list;
  * each view is a function from the current table (plus the request
    data) to the new table together with the HTTP-level outcome; an
    error outcome returns the table unchanged, mirroring the view
    redirecting or responding without writing;
  * timestamps are abstract ticks (a Nat passed in as the current time);
  * Python round(x, 2) is modelled over the rationals as rounding to the
    nearest multiple of 1/100 (Mathlib round, halves up; Python uses
    binary floats with ties to even, which agrees except at exact
    two-decimal midpoints, none of which occur in the statements below).
-/

namespace SchoolLMS

/-- Result.STATUS_CHOICES in results/models.py. -/
inductive Status where
  | draft
  | pending
  | verified
  | rejected
deriving DecidableEq

/-- Result.GRADE_CHOICES in results/models.py. -/
inductive Grade where
  | A
  | B
  | C
  | D
  | E
  | F
deriving DecidableEq

/-- CourseRegistration.STATUS_CHOICES in courses/models.py. -/
inductive RegStatus where
  | pending
  | approved
  | rejected
deriving DecidableEq

/-- One row of courses.CourseRegistration: foreign keys are modelled as
Nat ids. -/
structure CourseRegistration where
  student : Nat
  course : Nat
  session : Nat
  semester : Nat
  status : RegStatus
deriving DecidableEq

/-- One row of results.Result (results/models.py).  Foreign keys are Nat
ids, timestamps are Nat ticks, verified_by and verified_at are nullable. -/
structure Result where
  id : Nat
  student : Nat
  course : Nat
  session : Nat
  semester : Nat
  ca_score : ℚ
  exam_score : ℚ
  total_score : ℚ
  grade : Grade
  grade_point : ℚ
  remarks : String
  submitted_by : Nat
  submitted_at : Nat
  verified_by : Option Nat
  verified_at : Option Nat
  status : Status
deriving DecidableEq

/-- utils/helpers.py get_grade_from_score: grade letter and grade point
from a numeric score. -/
def get_grade_from_score (score : ℚ) : Grade × ℚ :=
  if score ≥ 70 then (Grade.A, 5)
  else if score ≥ 60 then (Grade.B, 4)
  else if score ≥ 50 then (Grade.C, 3)
  else if score ≥ 45 then (Grade.D, 2)
  else if score ≥ 40 then (Grade.E, 1)
  else (Grade.F, 0)

/-- results/models.py Result.save: recompute total_score from the two
sub-scores and the grade letter and grade point from the inline
threshold chain, then persist.  The chain is transcribed from the save
method itself, independently of get_grade_from_score. -/
def Result.save (r : Result) : Result :=
  let total_score := r.ca_score + r.exam_score
  if total_score ≥ 70 then
    { r with total_score := total_score, grade := Grade.A, grade_point := 5 }
  else if total_score ≥ 60 then
    { r with total_score := total_score, grade := Grade.B, grade_point := 4 }
  else if total_score ≥ 50 then
    { r with total_score := total_score, grade := Grade.C, grade_point := 3 }
  else if total_score ≥ 45 then
    { r with total_score := total_score, grade := Grade.D, grade_point := 2 }
  else if total_score ≥ 40 then
    { r with total_score := total_score, grade := Grade.E, grade_point := 1 }
  else
    { r with total_score := total_score, grade := Grade.F, grade_point := 0 }

/-- results/models.py Result.clean: range validation of the sub-scores. -/
def Result.clean (r : Result) : Except String Unit :=
  if r.ca_score < 0 ∨ r.ca_score > 40 then
    Except.error "CA score must be between 0 and 40"
  else if r.exam_score < 0 ∨ r.exam_score > 60 then
    Except.error "Exam score must be between 0 and 60"
  else
    Except.ok ()

/-- Python round(x, 2) over the rationals: nearest multiple of 1/100. -/
def round2 (q : ℚ) : ℚ := (round (q * 100) : ℤ) / 100

/-- utils/helpers.py calculate_gpa.  Course credit units
(courses.Course.credit_units, an IntegerField) are supplied as a lookup
from course id. -/
def calculate_gpa (credit_units : Nat → ℕ) (results : List Result) : ℚ :=
  if results = [] then 0
  else
    let total_points := (results.map (fun r => r.grade_point * (credit_units r.course : ℚ))).sum
    let total_units := (results.map (fun r => ((credit_units r.course : ℕ) : ℚ))).sum
    if total_units = 0 then 0
    else round2 (total_points / total_units)

/-- utils/helpers.py calculate_cgpa: calculate_gpa over all verified
rows of one student. -/
def calculate_cgpa (credit_units : Nat → ℕ) (db : List Result) (student : Nat) : ℚ :=
  calculate_gpa credit_units
    (db.filter (fun r => r.student = student ∧ r.status = Status.verified))

/-- The natural key of a Result row: the unique_together constraint of
Result.Meta in results/models.py. -/
def natKey (r : Result) : Nat × Nat × Nat × Nat :=
  (r.student, r.course, r.session, r.semester)

/-- Fresh autoincrement primary key for a newly created row. -/
def freshId (db : List Result) : Nat :=
  (db.map (fun r => r.id)).foldr max 0 + 1

/-- The defaults dict passed to Result.objects.update_or_create by
result_entry_view (results/views.py lines 138-150) and save_result_ajax
(lines 741-753), applied to an existing row, followed by Model.save. -/
def applyResultDefaults (r : Result) (ca exam : ℚ) (remarks : String)
    (submitter : Nat) : Result :=
  Result.save { r with ca_score := ca, exam_score := exam, remarks := remarks,
                       submitted_by := submitter, status := Status.draft }

/-- Result.objects.update_or_create keyed on the natural key: update the
matching row with the defaults if one exists, otherwise create a new row
(submitted_at is auto_now_add, set only on create).  Returns the new
table together with the saved row, as Django returns (result, created). -/
def update_or_create (db : List Result) (student course session semester : Nat)
    (ca exam : ℚ) (remarks : String) (submitter : Nat) (now : Nat) :
    List Result × Result :=
  match db.find? (fun r => natKey r = (student, course, session, semester)) with
  | some r =>
      (db.map (fun s =>
        if natKey s = (student, course, session, semester) then
          applyResultDefaults s ca exam remarks submitter
        else s),
       applyResultDefaults r ca exam remarks submitter)
  | none =>
      let newRow := Result.save
        { id := freshId db, student := student, course := course,
          session := session, semester := semester, ca_score := ca,
          exam_score := exam, total_score := 0, grade := Grade.F,
          grade_point := 0, remarks := remarks, submitted_by := submitter,
          submitted_at := now, verified_by := none, verified_at := none,
          status := Status.draft }
      (db ++ [newRow], newRow)

/-- results/views.py save_result_ajax: range-validate the sub-scores,
then update_or_create on the natural key with status forced to draft.
The ok payload is (total_score, grade, grade_point) of the saved row; an
error response writes nothing. -/
def save_result_ajax (db : List Result) (student course session semester : Nat)
    (ca_score exam_score : ℚ) (remarks : String) (staff : Nat) (now : Nat) :
    List Result × Except String (ℚ × Grade × ℚ) :=
  if ca_score < 0 ∨ ca_score > 40 then
    (db, Except.error "CA score must be between 0 and 40")
  else if exam_score < 0 ∨ exam_score > 60 then
    (db, Except.error "Exam score must be between 0 and 60")
  else
    let wr := update_or_create db student course session semester
                ca_score exam_score remarks staff now
    (wr.1, Except.ok (wr.2.total_score, wr.2.grade, wr.2.grade_point))

/-- results/views.py result_edit_view: look up the row by primary key,
refuse unless the requester owns it and its status is draft or rejected,
run the ModelForm (whose validation calls Result.clean, so out-of-range
scores leave the row unsaved), then form.save which runs Model.save. -/
def result_edit_view (db : List Result) (pk staff : Nat)
    (ca_score exam_score : ℚ) (remarks : String) :
    List Result × Option String :=
  match db.find? (fun r => r.id = pk) with
  | none => (db, some "404")
  | some r =>
      if r.submitted_by ≠ staff then
        (db, some "You do not have permission to edit this result.")
      else if r.status ≠ Status.draft ∧ r.status ≠ Status.rejected then
        (db, some "Only draft or rejected results can be edited.")
      else if ca_score < 0 ∨ ca_score > 40 ∨ exam_score < 0 ∨ exam_score > 60 then
        (db, some "form invalid")
      else
        (db.map (fun s =>
          if s.id = pk then
            Result.save { s with ca_score := ca_score, exam_score := exam_score,
                                 remarks := remarks }
          else s), none)

/-- The count of approved registrations for a course-term, as computed
by result_submit_view over CourseRegistration. -/
def approvedRegCount (regs : List CourseRegistration)
    (course session semester : Nat) : Nat :=
  (regs.filter (fun g => g.course = course ∧ g.session = session ∧
    g.semester = semester ∧ g.status = RegStatus.approved)).length

/-- The count of Result rows for a course-term (any status, any
submitter), as computed by result_submit_view. -/
def resultRowCount (db : List Result) (course session semester : Nat) : Nat :=
  (db.filter (fun r => r.course = course ∧ r.session = session ∧
    r.semester = semester)).length

/-- Row eligibility for the draft-to-pending bulk update performed by
result_submit_view: same course-term, submitted by the requesting
lecturer, currently draft. -/
def submitEligible (course session semester staff : Nat) (r : Result) : Prop :=
  r.course = course ∧ r.session = session ∧ r.semester = semester ∧
    r.submitted_by = staff ∧ r.status = Status.draft

instance (course session semester staff : Nat) (r : Result) :
    Decidable (submitEligible course session semester staff r) :=
  instDecidableAnd

/-- results/views.py result_submit_view: refuse with an error (writing
nothing) when the row count for the course-term is below the approved
registration count; otherwise move every eligible draft row to pending,
stamping submitted_at, and report how many rows were updated. -/
def result_submit_view (regs : List CourseRegistration) (db : List Result)
    (course session semester staff now : Nat) :
    List Result × Except String Nat :=
  if resultRowCount db course session semester <
      approvedRegCount regs course session semester then
    (db, Except.error "Please enter results for all students before submitting.")
  else
    (db.map (fun r =>
      if submitEligible course session semester staff r then
        { r with status := Status.pending, submitted_at := now }
      else r),
     Except.ok (db.filter
       (fun r => submitEligible course session semester staff r)).length)

/-- results/views.py result_verify_view: set the row to verified,
record the verifier when the requesting user has a staff profile, stamp
verified_at, then Model.save. -/
def result_verify_view (db : List Result) (pk : Nat) (verifier : Option Nat)
    (now : Nat) : List Result × Option String :=
  match db.find? (fun r => r.id = pk) with
  | none => (db, some "404")
  | some _ =>
      (db.map (fun r =>
        if r.id = pk then
          Result.save { r with
            status := Status.verified,
            verified_by := (match verifier with
              | some v => some v
              | none => r.verified_by),
            verified_at := some now }
        else r), none)

/-- results/views.py result_reject_view: set the row to rejected, record
the verifier and timestamp, and when a rejection reason was posted
prepend a REJECTED line to the remarks, then Model.save. -/
def result_reject_view (db : List Result) (pk : Nat) (verifier : Option Nat)
    (rejection_reason : String) (now : Nat) : List Result × Option String :=
  match db.find? (fun r => r.id = pk) with
  | none => (db, some "404")
  | some _ =>
      (db.map (fun r =>
        if r.id = pk then
          Result.save { r with
            status := Status.rejected,
            verified_by := (match verifier with
              | some v => some v
              | none => r.verified_by),
            verified_at := some now,
            remarks := if rejection_reason ≠ "" then
                "REJECTED: " ++ rejection_reason ++ "\n" ++ r.remarks
              else r.remarks }
        else r), none)

/-- results/views.py bulk_verify_results_ajax: refuse an empty id list,
otherwise QuerySet.update every row whose id is listed to verified with
this verifier and timestamp (update bypasses Model.save and touches no
other field), responding with the number of matched rows. -/
def bulk_verify_results_ajax (db : List Result) (result_ids : List Nat)
    (staff : Option Nat) (now : Nat) : List Result × Except String Nat :=
  if result_ids = [] then
    (db, Except.error "No results selected")
  else
    (db.map (fun r =>
      if r.id ∈ result_ids then
        { r with status := Status.verified, verified_by := staff,
                 verified_at := some now }
      else r),
     Except.ok (db.filter (fun r => r.id ∈ result_ids)).length)

/-- A row whose derived fields agree with its inputs: total is the sum
of the sub-scores and the grade pair is the classification of the
total. -/
def derivedConsistent (r : Result) : Prop :=
  r.total_score = r.ca_score + r.exam_score ∧
    (r.grade, r.grade_point) = get_grade_from_score r.total_score

instance (r : Result) : Decidable (derivedConsistent r) :=
  instDecidableAnd

/-- Every row of the table has consistent derived fields. -/
def storeConsistent (db : List Result) : Prop :=
  ∀ r ∈ db, derivedConsistent r

instance (db : List Result) : Decidable (storeConsistent db) :=
  List.decidableBAll _ db

/-- Canonical form of Result.save: it rewrites exactly the three derived
fields and the grade chain agrees with the standalone helper. -/
theorem save_eq (r : Result) :
    Result.save r = { r with
      total_score := r.ca_score + r.exam_score,
      grade := (get_grade_from_score (r.ca_score + r.exam_score)).1,
      grade_point := (get_grade_from_score (r.ca_score + r.exam_score)).2 } := by
  unfold Result.save get_grade_from_score
  dsimp only
  split_ifs <;> rfl

/-- Result.save always produces a row with consistent derived fields. -/
theorem save_derivedConsistent (r : Result) : derivedConsistent (Result.save r) := by
  rw [save_eq]
  exact ⟨rfl, rfl⟩

/-- Updating only non-score fields of a consistent row keeps it
consistent: consistency mentions nothing but the two sub-scores and the
three derived fields. -/
theorem derivedConsistent_update (r : Result) (h : derivedConsistent r)
    (i st sb sa : Nat) (rem : String) (vb : Option Nat) (va : Option Nat)
    (s : Status) :
    derivedConsistent { r with id := i, student := st, remarks := rem,
                               submitted_by := sb, submitted_at := sa,
                               verified_by := vb, verified_at := va,
                               status := s } := h

/-- C10: the standalone grading helper and the grading chain inlined in
Result.save are equivalent: for every row, the grade pair Result.save
assigns equals get_grade_from_score applied to the sum of the
sub-scores. -/
theorem save_matches_get_grade_from_score (r : Result) :
    ((Result.save r).grade, (Result.save r).grade_point) =
      get_grade_from_score (r.ca_score + r.exam_score) := by
  unfold Result.save get_grade_from_score
  dsimp only
  split_ifs <;> rfl

/-- C2: on the whole declared range the grade classification follows the
fixed thresholds, one band per score with no gaps or overlaps at the
boundaries 40/45/50/60/70; in particular a total of exactly 40 is E/1.0
and 39.99 is F/0.0. -/
theorem get_grade_from_score_bands (t : ℚ) (hlo : 0 ≤ t) (hhi : t ≤ 100) :
    (70 ≤ t → get_grade_from_score t = (Grade.A, 5)) ∧
    (60 ≤ t ∧ t < 70 → get_grade_from_score t = (Grade.B, 4)) ∧
    (50 ≤ t ∧ t < 60 → get_grade_from_score t = (Grade.C, 3)) ∧
    (45 ≤ t ∧ t < 50 → get_grade_from_score t = (Grade.D, 2)) ∧
    (40 ≤ t ∧ t < 45 → get_grade_from_score t = (Grade.E, 1)) ∧
    (t < 40 → get_grade_from_score t = (Grade.F, 0)) ∧
    get_grade_from_score 40 = (Grade.E, 1) ∧
    get_grade_from_score (3999/100) = (Grade.F, 0) := by
  refine ⟨fun h => ?_, fun h => ?_, fun h => ?_, fun h => ?_, fun h => ?_,
    fun h => ?_, by norm_num [get_grade_from_score], by norm_num [get_grade_from_score]⟩
  · unfold get_grade_from_score
    rw [if_pos (by linarith)]
  · unfold get_grade_from_score
    rw [if_neg (not_le.mpr (by linarith)), if_pos (by linarith)]
  · unfold get_grade_from_score
    rw [if_neg (not_le.mpr (by linarith)), if_neg (not_le.mpr (by linarith)),
      if_pos (by linarith)]
  · unfold get_grade_from_score
    rw [if_neg (not_le.mpr (by linarith)), if_neg (not_le.mpr (by linarith)),
      if_neg (not_le.mpr (by linarith)), if_pos (by linarith)]
  · unfold get_grade_from_score
    rw [if_neg (not_le.mpr (by linarith)), if_neg (not_le.mpr (by linarith)),
      if_neg (not_le.mpr (by linarith)), if_neg (not_le.mpr (by linarith)),
      if_pos (by linarith)]
  · unfold get_grade_from_score
    rw [if_neg (not_le.mpr (by linarith)), if_neg (not_le.mpr (by linarith)),
      if_neg (not_le.mpr (by linarith)), if_neg (not_le.mpr (by linarith)),
      if_neg (not_le.mpr (by linarith))]

/-- Witness for get_grade_from_score_bands: 55 lies in the C band. -/
theorem get_grade_from_score_bands_witness :
    get_grade_from_score 55 = (Grade.C, 3) :=
  (get_grade_from_score_bands 55 (by norm_num) (by norm_num)).2.2.1
    ⟨by norm_num, by norm_num⟩

/-- Mapping a row-wise consistency-preserving function over a consistent
table yields a consistent table. -/
theorem storeConsistent_map (db : List Result) (f : Result → Result)
    (h : storeConsistent db)
    (hf : ∀ r, derivedConsistent r → derivedConsistent (f r)) :
    storeConsistent (db.map f) := by
  intro r hr
  rw [List.mem_map] at hr
  obtain ⟨x, hx, rfl⟩ := hr
  exact hf x (h x hx)

/-- update_or_create keeps the table consistent: the touched row goes
through Result.save and every other row is untouched. -/
theorem update_or_create_storeConsistent (db : List Result)
    (student course session semester : Nat) (ca exam : ℚ) (remarks : String)
    (staff now : Nat) (h : storeConsistent db) :
    storeConsistent (update_or_create db student course session semester
      ca exam remarks staff now).1 := by
  rcases hfind : db.find?
      (fun r => natKey r = (student, course, session, semester)) with _ | r
  · simp only [update_or_create, hfind]
    intro r hr
    rw [List.mem_append] at hr
    rcases hr with hr | hr
    · exact h r hr
    · rw [List.mem_singleton] at hr
      subst hr
      exact save_derivedConsistent _
  · simp only [update_or_create, hfind]
    apply storeConsistent_map _ _ h
    intro x hx
    split
    · exact save_derivedConsistent _
    · exact hx

/-- C6: every write path of the subsystem recomputes the derived fields
from the inputs and persists them together: starting from a consistent
table, after any of the result views every persisted row still satisfies
total_score = ca_score + exam_score and (grade, grade_point) equal to
the classification of total_score; no path leaves a half-computed row. -/
theorem writes_keep_derived_consistent
    (db : List Result) (regs : List CourseRegistration)
    (student course session semester pk staff now : Nat)
    (verifier : Option Nat) (ids : List Nat)
    (ca exam : ℚ) (remarks reason : String)
    (h : storeConsistent db) :
    storeConsistent (save_result_ajax db student course session semester
        ca exam remarks staff now).1 ∧
    storeConsistent (result_edit_view db pk staff ca exam remarks).1 ∧
    storeConsistent (result_submit_view regs db course session semester
        staff now).1 ∧
    storeConsistent (result_verify_view db pk verifier now).1 ∧
    storeConsistent (result_reject_view db pk verifier reason now).1 ∧
    storeConsistent (bulk_verify_results_ajax db ids verifier now).1 := by
  refine ⟨?_, ?_, ?_, ?_, ?_, ?_⟩
  · unfold save_result_ajax
    split_ifs
    · exact h
    · exact h
    · exact update_or_create_storeConsistent db student course session semester
        ca exam remarks staff now h
  · unfold result_edit_view
    rcases hfind : db.find? (fun r => r.id = pk) with _ | r <;>
      simp only [hfind]
    · exact h
    · split_ifs
      · exact h
      · exact h
      · exact h
      · apply storeConsistent_map _ _ h
        intro x hx
        split
        · exact save_derivedConsistent _
        · exact hx
  · unfold result_submit_view
    split_ifs
    · exact h
    · apply storeConsistent_map _ _ h
      intro x hx
      split
      · exact hx
      · exact hx
  · unfold result_verify_view
    rcases hfind : db.find? (fun r => r.id = pk) with _ | r <;>
      simp only [hfind]
    · exact h
    · apply storeConsistent_map _ _ h
      intro x hx
      split
      · exact save_derivedConsistent _
      · exact hx
  · unfold result_reject_view
    rcases hfind : db.find? (fun r => r.id = pk) with _ | r <;>
      simp only [hfind]
    · exact h
    · apply storeConsistent_map _ _ h
      intro x hx
      split
      · exact save_derivedConsistent _
      · exact hx
  · unfold bulk_verify_results_ajax
    split_ifs
    · exact h
    · apply storeConsistent_map _ _ h
      intro x hx
      split
      · exact hx
      · exact hx

@[simp] theorem save_id (r : Result) : (Result.save r).id = r.id := by
  simp [save_eq]

@[simp] theorem save_student (r : Result) : (Result.save r).student = r.student := by
  simp [save_eq]

@[simp] theorem save_course (r : Result) : (Result.save r).course = r.course := by
  simp [save_eq]

@[simp] theorem save_session (r : Result) : (Result.save r).session = r.session := by
  simp [save_eq]

@[simp] theorem save_semester (r : Result) : (Result.save r).semester = r.semester := by
  simp [save_eq]

@[simp] theorem save_ca_score (r : Result) : (Result.save r).ca_score = r.ca_score := by
  simp [save_eq]

@[simp] theorem save_exam_score (r : Result) : (Result.save r).exam_score = r.exam_score := by
  simp [save_eq]

@[simp] theorem save_remarks (r : Result) : (Result.save r).remarks = r.remarks := by
  simp [save_eq]

@[simp] theorem save_submitted_by (r : Result) : (Result.save r).submitted_by = r.submitted_by := by
  simp [save_eq]

@[simp] theorem save_submitted_at (r : Result) : (Result.save r).submitted_at = r.submitted_at := by
  simp [save_eq]

@[simp] theorem save_verified_by (r : Result) : (Result.save r).verified_by = r.verified_by := by
  simp [save_eq]

@[simp] theorem save_verified_at (r : Result) : (Result.save r).verified_at = r.verified_at := by
  simp [save_eq]

@[simp] theorem save_status_eq (r : Result) : (Result.save r).status = r.status := by
  simp [save_eq]

@[simp] theorem save_natKey (r : Result) : natKey (Result.save r) = natKey r := by
  simp [natKey]

/-- A fixed consistent row used by the concrete checks below: scores
30 + 50 = 80, grade A, grade point 5, draft, submitted by staff 1, for
course-term (1, 1, 1). -/
def baseRow : Result :=
  { id := 1, student := 1, course := 1, session := 1, semester := 1,
    ca_score := 30, exam_score := 50, total_score := 80, grade := Grade.A,
    grade_point := 5, remarks := "", submitted_by := 1, submitted_at := 0,
    verified_by := none, verified_at := none, status := Status.draft }

/-- Every course carries one credit unit. -/
def unitCredits : Nat → ℕ := fun _ => 1

/-- Three one-unit rows with grade points 5, 5 and 0: the exact weighted
average is 10/3. -/
def gpaRowB : Result := { baseRow with id := 2, student := 2 }

def gpaRowC : Result :=
  { baseRow with
    id := 3, student := 3, ca_score := 10, exam_score := 20,
    total_score := 30, grade := Grade.F, grade_point := 0 }

/-- C1 counterexample: on three one-unit rows with grade points 5, 5, 0
calculate_gpa returns 3.33, the two-decimal rounding, while the
credit-unit-weighted average of grade points is 10/3, so the function
does not return that average. -/
theorem calculate_gpa_exact_average_counterexample :
    calculate_gpa unitCredits [baseRow, gpaRowB, gpaRowC] = 333/100 ∧
    (([baseRow, gpaRowB, gpaRowC].map
        (fun r => r.grade_point * (unitCredits r.course : ℚ))).sum /
      ([baseRow, gpaRowB, gpaRowC].map
        (fun r => ((unitCredits r.course : ℕ) : ℚ))).sum) = 10/3 ∧
    (333/100 : ℚ) ≠ 10/3 := by
  refine ⟨?_, by norm_num [baseRow, gpaRowB, gpaRowC, unitCredits], by norm_num⟩
  have hne : ([baseRow, gpaRowB, gpaRowC] : List Result) ≠ [] := by simp
  have hsum : (([baseRow, gpaRowB, gpaRowC].map
      (fun r => ((unitCredits r.course : ℕ) : ℚ))).sum) ≠ 0 := by
    norm_num [baseRow, gpaRowB, gpaRowC, unitCredits]
  unfold calculate_gpa
  dsimp only
  rw [if_neg hne, if_neg hsum]
  norm_num [baseRow, gpaRowB, gpaRowC, unitCredits, round2, round_eq]

/-- C1 (amended): calculate_gpa returns the credit-unit-weighted average
of grade points rounded to two decimal places on every non-empty record
set with nonzero total credit units; the empty record set gives 0.0 and
a zero total of credit units gives 0.0 instead of dividing by zero. -/
theorem calculate_gpa_weighted_rounded (credit_units : Nat → ℕ)
    (results : List Result) :
    calculate_gpa credit_units [] = 0 ∧
    ((results.map (fun r => ((credit_units r.course : ℕ) : ℚ))).sum = 0 →
      calculate_gpa credit_units results = 0) ∧
    (results ≠ [] →
      (results.map (fun r => ((credit_units r.course : ℕ) : ℚ))).sum ≠ 0 →
      calculate_gpa credit_units results =
        round2 ((results.map
            (fun r => r.grade_point * (credit_units r.course : ℚ))).sum /
          (results.map (fun r => ((credit_units r.course : ℕ) : ℚ))).sum)) := by
  refine ⟨by simp [calculate_gpa], fun hz => ?_, fun hne hz => ?_⟩
  · unfold calculate_gpa
    dsimp only
    split_ifs <;> rfl
  · unfold calculate_gpa
    dsimp only
    split_ifs with h1
    · exact absurd h1 hne
    · rfl

/-- Credit units for the weighted-correctness example: course 1 carries
3 units, every other course 1 unit. -/
def creditEx : Nat → ℕ := fun c => if c = 1 then 3 else 1

/-- A 3-point row in course 2. -/
def wRowB : Result :=
  { baseRow with
    id := 2, student := 2, course := 2, ca_score := 30,
    exam_score := 25, total_score := 55, grade := Grade.C, grade_point := 3 }

/-- Witness for calculate_gpa_weighted_rounded: the rows
(point 5, units 3) and (point 3, units 1) give (5*3 + 3*1)/4 = 4.5. -/
theorem calculate_gpa_weighted_rounded_witness :
    ([baseRow, wRowB] : List Result) ≠ [] ∧
    calculate_gpa creditEx [baseRow, wRowB] = 9/2 := by
  have h := (calculate_gpa_weighted_rounded creditEx [baseRow, wRowB]).2.2
    (by simp) (by norm_num [baseRow, wRowB, creditEx])
  refine ⟨by simp, ?_⟩
  rw [h]
  norm_num [baseRow, wRowB, creditEx, round2, round_eq]

/-- Witness for writes_keep_derived_consistent: a consistent one-row
table stays consistent through the AJAX upsert and the verify view. -/
theorem writes_keep_derived_consistent_witness :
    storeConsistent [baseRow] ∧
    storeConsistent (save_result_ajax [baseRow] 1 1 1 1 10 20 "" 2 5).1 ∧
    storeConsistent (result_verify_view [baseRow] 1 (some 9) 5).1 := by
  have hc : storeConsistent [baseRow] := by
    intro r hr
    rw [List.mem_singleton] at hr
    subst hr
    exact ⟨by norm_num [baseRow], by norm_num [baseRow, get_grade_from_score]⟩
  have h := writes_keep_derived_consistent [baseRow] [] 1 1 1 1 1 2 5 (some 9)
    [1] 10 20 "" "r" hc
  exact ⟨hc, h.1, h.2.2.2.1⟩

/-- C8: upsertScore validates the sub-score ranges before persisting:
out-of-range input returns an error and writes nothing, every in-range
input succeeds; Result.clean accepts exactly the in-range rows. -/
theorem upsert_score_validation (db : List Result)
    (student course session semester staff now : Nat)
    (ca exam : ℚ) (remarks : String) :
    ((ca < 0 ∨ 40 < ca ∨ exam < 0 ∨ 60 < exam) →
      (save_result_ajax db student course session semester ca exam remarks
          staff now).1 = db ∧
      ∃ msg, (save_result_ajax db student course session semester ca exam
          remarks staff now).2 = Except.error msg) ∧
    ((0 ≤ ca ∧ ca ≤ 40 ∧ 0 ≤ exam ∧ exam ≤ 60) →
      ∃ payload, (save_result_ajax db student course session semester ca exam
          remarks staff now).2 = Except.ok payload) ∧
    (∀ r : Result, Result.clean r = Except.ok () ↔
      (0 ≤ r.ca_score ∧ r.ca_score ≤ 40 ∧ 0 ≤ r.exam_score ∧ r.exam_score ≤ 60)) := by
  refine ⟨fun h => ?_, fun h => ?_, fun r => ?_⟩
  · unfold save_result_ajax
    split_ifs with h1 h2
    · exact ⟨rfl, _, rfl⟩
    · exact ⟨rfl, _, rfl⟩
    · exfalso
      push_neg at h1 h2
      rcases h with hb | hb | hb | hb
      · exact absurd hb (not_lt.mpr h1.1)
      · exact absurd hb (not_lt.mpr h1.2)
      · exact absurd hb (not_lt.mpr h2.1)
      · exact absurd hb (not_lt.mpr h2.2)
  · obtain ⟨h1, h2, h3, h4⟩ := h
    unfold save_result_ajax
    split_ifs with hb1 hb2
    · exfalso
      rcases hb1 with hb | hb <;> linarith
    · exfalso
      rcases hb2 with hb | hb <;> linarith
    · exact ⟨_, rfl⟩
  · unfold Result.clean
    split_ifs with h1 h2
    · refine iff_of_false (by simp) ?_
      rintro ⟨a, b, c, d⟩
      rcases h1 with hb | hb <;> linarith
    · refine iff_of_false (by simp) ?_
      rintro ⟨a, b, c, d⟩
      rcases h2 with hb | hb <;> linarith
    · push_neg at h1 h2
      exact iff_of_true rfl ⟨h1.1, h1.2, h2.1, h2.2⟩

/-- Witness for upsert_score_validation: CA 50 is rejected writing
nothing, CA 30 with exam 50 succeeds. -/
theorem upsert_score_validation_witness :
    ((50 : ℚ) < 0 ∨ (40 : ℚ) < 50 ∨ (10 : ℚ) < 0 ∨ (60 : ℚ) < 10) ∧
    (save_result_ajax [] 1 1 1 1 50 10 "" 7 0).1 = [] ∧
    (∃ msg, (save_result_ajax [] 1 1 1 1 50 10 "" 7 0).2 = Except.error msg) ∧
    (∃ payload, (save_result_ajax [] 1 1 1 1 30 50 "" 7 0).2 = Except.ok payload) := by
  have h1 := (upsert_score_validation [] 1 1 1 1 7 0 50 10 "").1
    (by norm_num)
  have h2 := (upsert_score_validation [] 1 1 1 1 7 0 30 50 "").2.1
    ⟨by norm_num, by norm_num, by norm_num, by norm_num⟩
  exact ⟨by norm_num, h1.1, h1.2, h2⟩

/-- C3: submit-for-verification is all-or-nothing: when the number of
existing rows for the course-term is below the number of approved
registrations the view fails with the incomplete-submission error and
transitions no row; otherwise it reports the number of eligible draft
rows and row i of the new table is row i of the old table, moved to
pending exactly when it is an eligible draft of this lecturer. -/
theorem result_submit_all_or_nothing (regs : List CourseRegistration)
    (db : List Result) (course session semester staff now : Nat) :
    (resultRowCount db course session semester <
        approvedRegCount regs course session semester →
      result_submit_view regs db course session semester staff now =
        (db, Except.error "Please enter results for all students before submitting.")) ∧
    (approvedRegCount regs course session semester ≤
        resultRowCount db course session semester →
      (result_submit_view regs db course session semester staff now).2 =
        Except.ok ((db.filter
          (fun r => submitEligible course session semester staff r)).length) ∧
      ∀ i : Nat,
        (result_submit_view regs db course session semester staff now).1.get? i =
          (db.get? i).map (fun r =>
            if submitEligible course session semester staff r then
              { r with status := Status.pending, submitted_at := now }
            else r)) := by
  constructor
  · intro h
    unfold result_submit_view
    rw [if_pos h]
  · intro h
    unfold result_submit_view
    rw [if_neg (not_lt.mpr h)]
    exact ⟨rfl, fun i => List.get?_map _ _ _⟩

/-- Approved registration for student 1 in course-term (1, 1, 1). -/
def regA : CourseRegistration :=
  { student := 1, course := 1, session := 1, semester := 1,
    status := RegStatus.approved }

/-- Approved registration for student 2 in the same course-term. -/
def regB : CourseRegistration := { regA with student := 2 }

/-- Witness for result_submit_all_or_nothing: with two approved
registrations and one row the submission fails changing nothing; with
one approved registration and one draft row it submits exactly one. -/
theorem result_submit_all_or_nothing_witness :
    resultRowCount [baseRow] 1 1 1 < approvedRegCount [regA, regB] 1 1 1 ∧
    result_submit_view [regA, regB] [baseRow] 1 1 1 1 5 =
      ([baseRow], Except.error "Please enter results for all students before submitting.") ∧
    approvedRegCount [regA] 1 1 1 ≤ resultRowCount [baseRow] 1 1 1 ∧
    (result_submit_view [regA] [baseRow] 1 1 1 1 5).2 = Except.ok 1 := by
  have hlt : resultRowCount [baseRow] 1 1 1 < approvedRegCount [regA, regB] 1 1 1 := by
    norm_num [resultRowCount, approvedRegCount, baseRow, regA, regB]
  have hle : approvedRegCount [regA] 1 1 1 ≤ resultRowCount [baseRow] 1 1 1 := by
    norm_num [resultRowCount, approvedRegCount, baseRow, regA]
  have h1 := (result_submit_all_or_nothing [regA, regB] [baseRow] 1 1 1 1 5).1 hlt
  have h2 := ((result_submit_all_or_nothing [regA] [baseRow] 1 1 1 1 5).2 hle).1
  refine ⟨hlt, h1, hle, ?_⟩
  rw [h2]
  norm_num [baseRow, submitEligible]

/-- A pending row with primary key i for student i. -/
def pendingRow (i : Nat) : Result :=
  { baseRow with id := i, student := i, status := Status.pending }

/-- An already-verified row, verified by staff 9 at tick 50. -/
def verifiedRow4 : Result :=
  { baseRow with
    id := 4, student := 4, status := Status.verified,
    verified_by := some 9, verified_at := some 50 }

/-- C4 counterexample: over 3 pending rows plus 1 already-verified row,
bulkVerify responds with count 4, not 3, and the already-verified row is
re-stamped with the new verifier and timestamp instead of being skipped
and reported. -/
theorem bulk_verify_skip_counterexample :
    (bulk_verify_results_ajax [pendingRow 1, pendingRow 2, pendingRow 3, verifiedRow4]
        [1, 2, 3, 4] (some 7) 100).2 = Except.ok 4 ∧
    (bulk_verify_results_ajax [pendingRow 1, pendingRow 2, pendingRow 3, verifiedRow4]
        [1, 2, 3, 4] (some 7) 100).2 ≠ Except.ok 3 ∧
    ∃ r ∈ (bulk_verify_results_ajax [pendingRow 1, pendingRow 2, pendingRow 3, verifiedRow4]
        [1, 2, 3, 4] (some 7) 100).1,
      r.id = 4 ∧ r.verified_by = some 7 ∧ r.verified_at = some 100 := by
  refine ⟨?_, ?_, ?_⟩ <;>
    simp [bulk_verify_results_ajax, pendingRow, verifiedRow4, baseRow, List.filter]

/-- C4 (amended): bulkVerify never fails for a non-empty id list, but it
does not skip records that are not pending: it uniformly re-stamps every
row whose id is listed — whatever its prior status — to verified with
this verifier and timestamp, touches no other row, and responds with the
count of all matched rows with nothing reported as skipped. -/
theorem bulk_verify_updates_every_matched (db : List Result)
    (ids : List Nat) (staff : Option Nat) (now : Nat) (hne : ids ≠ []) :
    (bulk_verify_results_ajax db ids staff now).2 =
      Except.ok ((db.filter (fun r => r.id ∈ ids)).length) ∧
    (∀ r ∈ (bulk_verify_results_ajax db ids staff now).1,
      r.id ∈ ids →
        r.status = Status.verified ∧ r.verified_by = staff ∧
          r.verified_at = some now) ∧
    (∀ i : Nat, (bulk_verify_results_ajax db ids staff now).1.get? i =
      (db.get? i).map (fun r =>
        if r.id ∈ ids then
          { r with status := Status.verified, verified_by := staff,
                   verified_at := some now }
        else r)) := by
  unfold bulk_verify_results_ajax
  rw [if_neg hne]
  refine ⟨rfl, ?_, fun i => List.get?_map _ _ _⟩
  intro r hr hid
  rw [List.mem_map] at hr
  obtain ⟨x, hx, rfl⟩ := hr
  by_cases hmem : x.id ∈ ids
  · rw [if_pos hmem]
    exact ⟨rfl, rfl, rfl⟩
  · rw [if_neg hmem] at hid ⊢
    exact absurd hid hmem

/-- Witness for bulk_verify_updates_every_matched on the mixed batch:
the response counts all four matched rows. -/
theorem bulk_verify_updates_every_matched_witness :
    ([1, 2, 3, 4] : List Nat) ≠ [] ∧
    (bulk_verify_results_ajax [pendingRow 1, pendingRow 2, pendingRow 3, verifiedRow4]
        [1, 2, 3, 4] (some 8) 200).2 = Except.ok 4 := by
  have h := (bulk_verify_updates_every_matched
    [pendingRow 1, pendingRow 2, pendingRow 3, verifiedRow4]
    [1, 2, 3, 4] (some 8) 200 (by simp)).1
  refine ⟨by simp, ?_⟩
  rw [h]
  simp [pendingRow, verifiedRow4, baseRow, List.filter]

@[simp] theorem applyResultDefaults_natKey (r : Result) (ca exam : ℚ)
    (rem : String) (staff : Nat) :
    natKey (applyResultDefaults r ca exam rem staff) = natKey r := by
  simp [applyResultDefaults, natKey]

@[simp] theorem applyResultDefaults_status (r : Result) (ca exam : ℚ)
    (rem : String) (staff : Nat) :
    (applyResultDefaults r ca exam rem staff).status = Status.draft := by
  simp [applyResultDefaults]

@[simp] theorem applyResultDefaults_ca_score (r : Result) (ca exam : ℚ)
    (rem : String) (staff : Nat) :
    (applyResultDefaults r ca exam rem staff).ca_score = ca := by
  simp [applyResultDefaults]

@[simp] theorem applyResultDefaults_exam_score (r : Result) (ca exam : ℚ)
    (rem : String) (staff : Nat) :
    (applyResultDefaults r ca exam rem staff).exam_score = exam := by
  simp [applyResultDefaults]

/-- Every row carrying the upserted natural key is in draft after
update_or_create, whatever status it had before. -/
theorem update_or_create_key_rows_draft (db : List Result)
    (student course session semester : Nat) (ca exam : ℚ) (remarks : String)
    (staff now : Nat) :
    ∀ s ∈ (update_or_create db student course session semester ca exam remarks
        staff now).1,
      natKey s = (student, course, session, semester) →
        s.status = Status.draft := by
  intro s hs hk
  rcases hfind : db.find?
      (fun r => natKey r = (student, course, session, semester)) with _ | r
  · simp only [update_or_create, hfind] at hs
    rw [List.mem_append] at hs
    rcases hs with hs | hs
    · rw [List.find?_eq_none] at hfind
      have := hfind s hs
      simp [hk] at this
    · rw [List.mem_singleton] at hs
      subst hs
      simp
  · simp only [update_or_create, hfind] at hs
    rw [List.mem_map] at hs
    obtain ⟨x, hx, rfl⟩ := hs
    by_cases hkey : natKey x = (student, course, session, semester)
    · rw [if_pos hkey]
      simp
    · rw [if_neg hkey] at hk ⊢
      exact absurd hk hkey

/-- In-range upserts through save_result_ajax leave every row with the
posted natural key in draft. -/
theorem save_result_ajax_key_rows_draft (db : List Result)
    (student course session semester : Nat) (ca exam : ℚ) (remarks : String)
    (staff now : Nat)
    (hca : 0 ≤ ca) (hca2 : ca ≤ 40) (hex : 0 ≤ exam) (hex2 : exam ≤ 60) :
    ∀ s ∈ (save_result_ajax db student course session semester ca exam remarks
        staff now).1,
      natKey s = (student, course, session, semester) →
        s.status = Status.draft := by
  unfold save_result_ajax
  rw [if_neg (by push_neg; exact ⟨hca, hca2⟩ : ¬(ca < 0 ∨ ca > 40)),
    if_neg (by push_neg; exact ⟨hex, hex2⟩ : ¬(exam < 0 ∨ exam > 60))]
  exact update_or_create_key_rows_draft db student course session semester
    ca exam remarks staff now

/-- A verified row carrying the natural key (1, 1, 1, 1). -/
def verifiedRowK : Result :=
  { baseRow with
    status := Status.verified, verified_by := some 9, verified_at := some 50 }

/-- C5 counterexample: upserting on the natural key of a verified row
through save_result_ajax overwrites its scores and demotes its status to
draft, so the verified record is not immutable through the upsert
path. -/
theorem verified_record_upsert_counterexample :
    verifiedRowK.status = Status.verified ∧
    (save_result_ajax [verifiedRowK] 1 1 1 1 10 20 "" 2 5).1 ≠ [verifiedRowK] ∧
    ∃ r ∈ (save_result_ajax [verifiedRowK] 1 1 1 1 10 20 "" 2 5).1,
      natKey r = natKey verifiedRowK ∧ r.status = Status.draft ∧
        r.ca_score = 10 ∧ r.exam_score = 20 := by
  have hdb : (save_result_ajax [verifiedRowK] 1 1 1 1 10 20 "" 2 5).1 =
      [applyResultDefaults verifiedRowK 10 20 "" 2] := by
    norm_num [save_result_ajax, update_or_create, verifiedRowK, baseRow,
      natKey, List.find?]
  refine ⟨by norm_num [verifiedRowK, baseRow], ?_, ?_⟩
  · rw [hdb]
    intro hcontra
    rw [List.cons_eq_cons] at hcontra
    have := congrArg Result.status hcontra.1
    simp [verifiedRowK, baseRow] at this
  · simp only [hdb]
    exact ⟨applyResultDefaults verifiedRowK 10 20 "" 2,
      List.mem_singleton_self _, by simp, by simp, by simp, by simp⟩

/-- C5 (amended): a verified row is immutable through the edit view —
result_edit_view refuses any row whose status is neither draft nor
rejected and leaves the table unchanged — but not through the upsert
path: update_or_create has no status guard and resets every row carrying
the posted natural key to draft. -/
theorem edit_guard_and_upsert_resets_draft (db : List Result)
    (pk staff : Nat) (ca exam : ℚ) (remarks : String)
    (student course session semester staff2 now : Nat) (r : Result)
    (hfind : db.find? (fun s => s.id = pk) = some r)
    (hstat : r.status = Status.pending ∨ r.status = Status.verified)
    (hca : 0 ≤ ca) (hca2 : ca ≤ 40) (hex : 0 ≤ exam) (hex2 : exam ≤ 60) :
    (result_edit_view db pk staff ca exam remarks).1 = db ∧
    (∃ msg, (result_edit_view db pk staff ca exam remarks).2 = some msg) ∧
    (∀ s ∈ (save_result_ajax db student course session semester ca exam remarks
        staff2 now).1,
      natKey s = (student, course, session, semester) →
        s.status = Status.draft) := by
  have hguard : r.status ≠ Status.draft ∧ r.status ≠ Status.rejected := by
    rcases hstat with h | h <;> rw [h] <;> exact ⟨by simp, by simp⟩
  refine ⟨?_, ?_, save_result_ajax_key_rows_draft db student course session
    semester ca exam remarks staff2 now hca hca2 hex hex2⟩
  · simp only [result_edit_view, hfind]
    split_ifs with h1
    · rfl
    · rfl
  · simp only [result_edit_view, hfind]
    split_ifs with h1
    · exact ⟨_, rfl⟩
    · exact ⟨_, rfl⟩

/-- Witness for edit_guard_and_upsert_resets_draft: editing the verified
row 1 is refused with the table unchanged, and the upsert on its key
leaves only draft rows on that key. -/
theorem edit_guard_and_upsert_resets_draft_witness :
    (result_edit_view [verifiedRowK] 1 1 33 44 "x").1 = [verifiedRowK] ∧
    (∃ msg, (result_edit_view [verifiedRowK] 1 1 33 44 "x").2 = some msg) ∧
    (∀ s ∈ (save_result_ajax [verifiedRowK] 1 1 1 1 33 44 "x" 2 5).1,
      natKey s = (1, 1, 1, 1) → s.status = Status.draft) := by
  have hfind : ([verifiedRowK] : List Result).find? (fun s => s.id = 1) =
      some verifiedRowK := by
    norm_num [List.find?, verifiedRowK, baseRow]
  have h := edit_guard_and_upsert_resets_draft [verifiedRowK] 1 1 33 44 "x"
    1 1 1 1 2 5 verifiedRowK hfind
    (Or.inr (by norm_num [verifiedRowK, baseRow]))
    (by norm_num) (by norm_num) (by norm_num) (by norm_num)
  exact h

/-- C7: the reject view sets the row to rejected, prepends the REJECTED
line to its remarks, records the verifier identity and the timestamp and
touches no score, and a subsequent in-range upsert on the same natural
key resets every row carrying that key to draft, allowing
resubmission. -/
theorem reject_then_reentry (db : List Result) (pk v now : Nat)
    (reason : String) (hreason : reason ≠ "")
    (i : Nat) (r : Result) (hget : db.get? i = some r) (hid : r.id = pk) :
    (result_reject_view db pk (some v) reason now).2 = none ∧
    (∃ s, (result_reject_view db pk (some v) reason now).1.get? i = some s ∧
      s.status = Status.rejected ∧
      s.remarks = "REJECTED: " ++ reason ++ "\n" ++ r.remarks ∧
      s.verified_by = some v ∧ s.verified_at = some now ∧
      s.ca_score = r.ca_score ∧ s.exam_score = r.exam_score ∧
      natKey s = natKey r) ∧
    (∀ (db2 : List Result) (ca exam : ℚ) (remarks2 : String) (staff2 now2 : Nat),
      0 ≤ ca → ca ≤ 40 → 0 ≤ exam → exam ≤ 60 →
      ∀ t ∈ (save_result_ajax db2 r.student r.course r.session r.semester
          ca exam remarks2 staff2 now2).1,
        natKey t = natKey r → t.status = Status.draft) := by
  have hmem : r ∈ db := List.get?_mem hget
  have hsome : (db.find? (fun s => s.id = pk)).isSome := by
    rw [List.find?_isSome]
    exact ⟨r, hmem, by simp [hid]⟩
  rcases hfind : db.find? (fun s => s.id = pk) with _ | r0
  · rw [hfind] at hsome
    simp at hsome
  · refine ⟨?_, ?_, ?_⟩
    · simp only [result_reject_view, hfind]
    · simp only [result_reject_view, hfind]
      rw [List.get?_map, hget]
      refine ⟨_, rfl, ?_, ?_, ?_, ?_, ?_, ?_, ?_⟩
      all_goals simp [hid, hreason, natKey]
    · intro db2 ca exam remarks2 staff2 now2 h1 h2 h3 h4
      exact save_result_ajax_key_rows_draft db2 r.student r.course r.session
        r.semester ca exam remarks2 staff2 now2 h1 h2 h3 h4

/-- A pending row with prior remarks, used by the rejection witness. -/
def pendingRemarkRow : Result :=
  { baseRow with status := Status.pending, remarks := "first entry" }

/-- Witness for reject_then_reentry: rejecting row 1 with reason
"bad entry" yields status rejected and the prepended remark line. -/
theorem reject_then_reentry_witness :
    ("bad entry" : String) ≠ "" ∧
    ∃ s, (result_reject_view [pendingRemarkRow] 1 (some 9) "bad entry" 50).1.get? 0 =
        some s ∧
      s.status = Status.rejected ∧
      s.remarks = "REJECTED: bad entry\nfirst entry" ∧
      s.verified_by = some 9 := by
  have hr : ("bad entry" : String) ≠ "" := by decide
  have h := reject_then_reentry [pendingRemarkRow] 1 9 50 "bad entry" hr 0
    pendingRemarkRow rfl rfl
  obtain ⟨-, ⟨s, hs, hstat, hrem, hvb, -⟩, -⟩ := h
  refine ⟨hr, s, hs, hstat, ?_, hvb⟩
  rw [hrem]
  rfl

/-- Result.save is idempotent: re-saving recomputes the same derived
fields from the unchanged sub-scores. -/
theorem save_save (r : Result) : Result.save (Result.save r) = Result.save r := by
  simp only [save_eq]

/-- A saved row already carrying the upserted field values is a fixed
point of applyResultDefaults. -/
theorem applyResultDefaults_fixpoint (r : Result) (h5 : r.status = Status.draft) :
    applyResultDefaults (Result.save r) r.ca_score r.exam_score r.remarks
      r.submitted_by = Result.save r := by
  unfold applyResultDefaults
  simp only [save_eq]
  rw [h5]

/-- Applying the same defaults twice writes the same row once. -/
theorem applyResultDefaults_idem (r : Result) (ca exam : ℚ) (rem : String)
    (staff : Nat) :
    applyResultDefaults (applyResultDefaults r ca exam rem staff) ca exam rem
      staff = applyResultDefaults r ca exam rem staff :=
  applyResultDefaults_fixpoint
    { r with ca_score := ca, exam_score := exam, remarks := rem,
             submitted_by := staff, status := Status.draft } rfl

/-- Under pairwise-distinct natural keys, at most one row carries any
given key. -/
theorem countP_key_le_one (db : List Result) (k : Nat × Nat × Nat × Nat)
    (huniq : db.Pairwise (fun a b => natKey a ≠ natKey b)) :
    db.countP (fun r => natKey r = k) ≤ 1 := by
  induction db with
  | nil => simp
  | cons x xs ih =>
    rw [List.pairwise_cons] at huniq
    obtain ⟨hx, hxs⟩ := huniq
    rw [List.countP_cons]
    by_cases hk : natKey x = k
    · have hz : xs.countP (fun r => natKey r = k) = 0 := by
        rw [List.countP_eq_zero]
        intro a ha
        simp only [decide_eq_true_eq]
        intro hak
        exact hx a ha (by rw [hk, hak])
      simp [hz, hk]
    · have hle := ih hxs
      simp only [hk, decide_eq_true_eq]
      simpa [hk] using hle

/-- The row transformer of update_or_create never changes a natural
key, so composing it with the key test gives the key test back. -/
theorem upsert_pred_comp (student course session semester : Nat) (ca exam : ℚ)
    (remarks : String) (staff : Nat) :
    ((fun r => decide (natKey r = (student, course, session, semester))) ∘
      (fun s => if natKey s = (student, course, session, semester) then
        applyResultDefaults s ca exam remarks staff else s)) =
    (fun r => decide (natKey r = (student, course, session, semester))) := by
  funext x
  by_cases h : natKey x = (student, course, session, semester)
  · simp [Function.comp, h]
  · simp [Function.comp, h]

/-- Specialisation of List.find?_some to this table type: the row found
by find? satisfies the test. -/
theorem find?_some_eq {p : Result → Bool} {db : List Result} {r : Result}
    (h : db.find? p = some r) : p r = true :=
  List.find?_some h

/-- applyResultDefaults with the same arguments fixes a freshly created
row. -/
theorem applyResultDefaults_fresh (i student course session semester : Nat)
    (ca exam : ℚ) (remarks : String) (staff now : Nat) :
    applyResultDefaults (Result.save
      { id := i, student := student, course := course, session := session,
        semester := semester, ca_score := ca, exam_score := exam,
        total_score := 0, grade := Grade.F, grade_point := 0,
        remarks := remarks, submitted_by := staff, submitted_at := now,
        verified_by := none, verified_at := none, status := Status.draft })
      ca exam remarks staff =
    Result.save
      { id := i, student := student, course := course, session := session,
        semester := semester, ca_score := ca, exam_score := exam,
        total_score := 0, grade := Grade.F, grade_point := 0,
        remarks := remarks, submitted_by := staff, submitted_at := now,
        verified_by := none, verified_at := none, status := Status.draft } :=
  applyResultDefaults_fixpoint _ rfl

/-- update_or_create is idempotent: repeating the call with identical
arguments returns exactly the table and row of the first call. -/
theorem update_or_create_idem (db : List Result)
    (student course session semester : Nat) (ca exam : ℚ) (remarks : String)
    (staff now now2 : Nat) :
    update_or_create (update_or_create db student course session semester ca
        exam remarks staff now).1 student course session semester ca exam
        remarks staff now2 =
      update_or_create db student course session semester ca exam remarks staff
        now := by
  rcases hfind : db.find?
      (fun r => natKey r = (student, course, session, semester)) with _ | r
  · simp only [update_or_create, hfind]
    rw [List.find?_append, hfind, Option.none_or,
      List.find?_cons_of_pos _ (by simp [natKey])]
    rw [Prod.mk.injEq]
    constructor
    · rw [List.map_append]
      rw [List.find?_eq_none] at hfind
      have hdb : db.map (fun s =>
          if natKey s = (student, course, session, semester) then
            applyResultDefaults s ca exam remarks staff
          else s) = db := by
        conv_rhs => rw [← List.map_id' db]
        apply List.map_congr_left
        intro a ha
        have hne : ¬ natKey a = (student, course, session, semester) := by
          simpa using hfind a ha
        rw [if_neg hne]
      rw [hdb, List.map_singleton, if_pos (by simp [natKey] :
          natKey (Result.save
            { id := freshId db, student := student, course := course,
              session := session, semester := semester, ca_score := ca,
              exam_score := exam, total_score := 0, grade := Grade.F,
              grade_point := 0, remarks := remarks, submitted_by := staff,
              submitted_at := now, verified_by := none, verified_at := none,
              status := Status.draft }) = (student, course, session, semester)),
        applyResultDefaults_fresh]
    · rw [applyResultDefaults_fresh]
  · have hkey : natKey r = (student, course, session, semester) := by
      have hsat := find?_some_eq hfind
      simpa using hsat
    simp only [update_or_create, hfind]
    rw [List.find?_map, upsert_pred_comp, hfind, Option.map_some']
    rw [if_pos hkey]
    rw [Prod.mk.injEq]
    constructor
    · rw [List.map_map]
      apply List.map_congr_left
      intro a ha
      by_cases hk : natKey a = (student, course, session, semester)
      · rw [Function.comp_apply, if_pos hk,
          if_pos (by rw [applyResultDefaults_natKey]; exact hk),
          applyResultDefaults_idem]
      · rw [Function.comp_apply, if_neg hk, if_neg hk]
    · rw [applyResultDefaults_idem]

/-- After update_or_create exactly one row carries the upserted natural
key, provided the table had pairwise-distinct keys. -/
theorem update_or_create_count_one (db : List Result)
    (student course session semester : Nat) (ca exam : ℚ) (remarks : String)
    (staff now : Nat)
    (huniq : db.Pairwise (fun a b => natKey a ≠ natKey b)) :
    ((update_or_create db student course session semester ca exam remarks staff
        now).1.filter
      (fun r => natKey r = (student, course, session, semester))).length = 1 := by
  rw [← List.countP_eq_length_filter]
  rcases hfind : db.find?
      (fun r => natKey r = (student, course, session, semester)) with _ | r
  · simp only [update_or_create, hfind]
    rw [List.countP_append]
    rw [List.find?_eq_none] at hfind
    have h0 : db.countP
        (fun r => natKey r = (student, course, session, semester)) = 0 := by
      rw [List.countP_eq_zero]
      intro a ha
      simpa using hfind a ha
    rw [h0]
    simp [List.countP_cons, natKey]
  · simp only [update_or_create, hfind]
    rw [List.countP_map, upsert_pred_comp]
    have hle := countP_key_le_one db (student, course, session, semester) huniq
    have hpos : 0 < db.countP
        (fun r => natKey r = (student, course, session, semester)) := by
      rw [List.countP_pos_iff]
      exact ⟨r, List.mem_of_find?_eq_some hfind,
        by simpa using find?_some_eq hfind⟩
    omega

/-- C9: upsertScore is idempotent on its natural key: starting from a
table with pairwise-distinct natural keys, after an in-range call
exactly one row carries the upserted key, and repeating the call with
identical arguments returns the same table and the same response — the
second call updates rather than duplicates and changes no field of the
row, its total, grade and grade point included. -/
theorem upsert_idempotent_natural_key (db : List Result)
    (student course session semester staff now : Nat) (ca exam : ℚ)
    (remarks : String)
    (hca : 0 ≤ ca) (hca2 : ca ≤ 40) (hex : 0 ≤ exam) (hex2 : exam ≤ 60)
    (huniq : db.Pairwise (fun a b => natKey a ≠ natKey b)) :
    (((save_result_ajax db student course session semester ca exam remarks staff
          now).1.filter
        (fun r => natKey r = (student, course, session, semester))).length = 1) ∧
    save_result_ajax (save_result_ajax db student course session semester ca
        exam remarks staff now).1 student course session semester ca exam
        remarks staff now =
      save_result_ajax db student course session semester ca exam remarks staff
        now := by
  have hv1 : ¬(ca < 0 ∨ ca > 40) := by push_neg; exact ⟨hca, hca2⟩
  have hv2 : ¬(exam < 0 ∨ exam > 60) := by push_neg; exact ⟨hex, hex2⟩
  simp only [save_result_ajax, if_neg hv1, if_neg hv2]
  constructor
  · exact update_or_create_count_one db student course session semester ca exam
      remarks staff now huniq
  · rw [update_or_create_idem db student course session semester ca exam remarks
      staff now now]

/-- Witness for upsert_idempotent_natural_key: upserting (30, 50) twice
into an empty table keeps one row and an unchanged table. -/
theorem upsert_idempotent_natural_key_witness :
    (0 : ℚ) ≤ 30 ∧ (30 : ℚ) ≤ 40 ∧ (0 : ℚ) ≤ 50 ∧ (50 : ℚ) ≤ 60 ∧
    List.Pairwise (fun a b => natKey a ≠ natKey b) ([] : List Result) ∧
    (((save_result_ajax [] 1 1 1 1 30 50 "" 7 0).1.filter
        (fun r => natKey r = (1, 1, 1, 1))).length = 1) ∧
    save_result_ajax (save_result_ajax [] 1 1 1 1 30 50 "" 7 0).1
        1 1 1 1 30 50 "" 7 0 =
      save_result_ajax [] 1 1 1 1 30 50 "" 7 0 := by
  have h := upsert_idempotent_natural_key [] 1 1 1 1 7 0 30 50 ""
    (by norm_num) (by norm_num) (by norm_num) (by norm_num) List.Pairwise.nil
  exact ⟨by norm_num, by norm_num, by norm_num, by norm_num, List.Pairwise.nil,
    h.1, h.2⟩

end SchoolLMS
